import Mathlib

/-!
Verification of the browser-side controller in `src/app.js`.

The controller binds three button click handlers (save token, update bio,
delete token).  Each handler reads form fields from the page, issues one
POST request, and reacts to the outcome by mutating the page (status text,
the tokenId display, hidden classes), logging to the console, showing
alerts, or reloading the page.

We embed each handler as a pure function from the page state and the fetch
outcome to the list of effects the handler performs, in order.  A separate
interpreter folds the effects over the page state.  This keeps the data
flow of the source (what is read, what is sent, what is written) visible
in the trace, so that properties such as "no request is issued" or "the
transition happens exactly once" are statements about the trace.
-/

/-- The page elements `app.js` touches via `document.getElementById`. -/
inductive ElemId
  | token
  | label
  | saveResult
  | tokenId
  | step1
  | dashboard
  | newBio
  | updateResult
  | displayBio
deriving DecidableEq

/-- The universal response envelope of the backend, as the spec describes
it and as `app.js` consumes it: a boolean `ok`, an optional integer `id`
(only meaningful on a successful save) and an optional `error` string. -/
structure ServiceResponse where
  ok : Bool
  id : Option Int
  error : Option String
deriving DecidableEq

/-- Outcome of one `fetch` round trip as seen by the handler: either a
parsed JSON response, or a thrown error (network failure or a body that
`r.json()` could not parse), carrying the technical detail of the
exception. -/
inductive FetchOutcome
  | success (j : ServiceResponse)
  | failure (detail : String)
deriving DecidableEq

/-- The JSON bodies the three handlers serialize with `JSON.stringify`. -/
inductive RequestBody
  | saveReq (token : String) (label : String)
  | updateReq (id : Int) (newBio : String)
  | deleteReq (id : Int)
deriving DecidableEq

/-- One observable step of a handler, in program order. -/
inductive Effect
  | setText (el : ElemId) (text : String)
  | addHiddenClass (el : ElemId)
  | removeHiddenClass (el : ElemId)
  | post (url : String) (body : RequestBody)
  | consoleError (detail : String)
  | confirmPrompt (msg : String)
  | alertMsg (msg : String)
  | reloadPage
deriving DecidableEq

/-- The client-held page state `app.js` reads and writes: the three input
fields, the four text regions, and the hidden flags of the step-1 and
dashboard sections. -/
structure Dom where
  tokenValue : String
  labelValue : String
  newBioValue : String
  saveResultText : String
  tokenIdText : String
  updateResultText : String
  displayBioText : String
  step1Hidden : Bool
  dashboardHidden : Bool
deriving DecidableEq

/-- Modelled from the spec: the initial page (the markup is not under
`src/`) shows the step-1 setup affordance, hides the dashboard affordance,
and has every input and text region empty; the session identifier display
(`tokenId`) in particular is unset (empty). -/
def initialDom : Dom :=
  { tokenValue := ""
    labelValue := ""
    newBioValue := ""
    saveResultText := ""
    tokenIdText := ""
    updateResultText := ""
    displayBioText := ""
    step1Hidden := false
    dashboardHidden := true }

/-- Interpretation of one effect on the page state.  `setText` on the
four text regions updates them (the handlers never set text on an input
element); the hidden-class effects toggle the two flags; requests, logs,
alerts and the confirmation prompt do not change the page; `reloadPage`
is modelled from the spec: `location.reload()` re-initializes the page
to `initialDom`, discarding all session state. -/
def applyEffect (d : Dom) : Effect → Dom
  | .setText el t =>
    match el with
    | .saveResult => { d with saveResultText := t }
    | .tokenId => { d with tokenIdText := t }
    | .updateResult => { d with updateResultText := t }
    | .displayBio => { d with displayBioText := t }
    | _ => d
  | .addHiddenClass el =>
    match el with
    | .step1 => { d with step1Hidden := true }
    | .dashboard => { d with dashboardHidden := true }
    | _ => d
  | .removeHiddenClass el =>
    match el with
    | .step1 => { d with step1Hidden := false }
    | .dashboard => { d with dashboardHidden := false }
    | _ => d
  | .post _ _ => d
  | .consoleError _ => d
  | .confirmPrompt _ => d
  | .alertMsg _ => d
  | .reloadPage => initialDom

/-- Fold a handler trace over the page state, in order. -/
def applyEffects (d : Dom) : List Effect → Dom
  | [] => d
  | e :: es => applyEffects (applyEffect d e) es

/-- The whitespace test behind the JavaScript `trim()` used on lines 4
and 5 of `app.js`, restricted to the ASCII whitespace characters; the
exotic Unicode space characters JavaScript also strips are not modelled
(no claim depends on them). -/
def jsWhitespace (c : Char) : Bool :=
  c == ' ' || c == '\t' || c == '\n' || c == '\r' || c == '\x0b' || c == '\x0c'

/-- The JavaScript `String.prototype.trim()`: remove leading and trailing
whitespace. -/
def jsTrim (s : String) : String :=
  ⟨((s.data.dropWhile jsWhitespace).reverse.dropWhile jsWhitespace).reverse⟩

/-- Value of a list of decimal digit characters, `none` when a non-digit
occurs; the empty list has value `0`, matching `Number("") == 0`. -/
def decDigits (cs : List Char) : Option Nat :=
  cs.foldl
    (fun acc c =>
      match acc with
      | some n => if c.isDigit then some (n * 10 + (c.toNat - 48)) else none
      | none => none)
    (some 0)

/-- Modelled from the JavaScript environment: the `Number()` coercion
applied to the tokenId display on lines 31 and 55 of `app.js`.  The empty
or whitespace-only string coerces to `0`, an optionally negated decimal
numeral to its value.  Strings that coerce to `NaN` in JavaScript are
mapped to `0` here: this program only ever stores the empty string or a
decimal numeral in that display, and no claim touches the `NaN` case. -/
def jsNumber (s : String) : Int :=
  match (jsTrim s).data with
  | '-' :: rest =>
    (match decDigits rest with
     | some n => -(n : Int)
     | none => 0)
  | cs =>
    (match decDigits cs with
     | some n => (n : Int)
     | none => 0)

/-- `JSON.stringify` of a response envelope, with the fields in the order
of the envelope (escaping of special characters inside the `error` string
is not modelled; no claim depends on it). -/
def stringifyResponse (j : ServiceResponse) : String :=
  "\x7b\"ok\":" ++ (if j.ok then "true" else "false")
    ++ (match j.id with
        | some n => ",\"id\":" ++ toString n
        | none => "")
    ++ (match j.error with
        | some e => ",\"error\":\"" ++ e ++ "\""
        | none => "")
    ++ "\x7d"

/-- `j.error || JSON.stringify(j)` from lines 22 and 46 of `app.js`: the
JavaScript `||` falls through to the stringified response not only when
the `error` field is absent (`undefined`, falsy) but also when it is
present and equal to the empty string (the only falsy string). -/
def errorOrStringify (j : ServiceResponse) : String :=
  match j.error with
  | some e => if e = "" then stringifyResponse j else e
  | none => stringifyResponse j

/-- `innerText = j.id` from line 18 of `app.js`: a number is rendered in
decimal; an absent field is the JavaScript value `undefined`, which the
assignment renders as the string "undefined". -/
def innerTextOfId (id : Option Int) : String :=
  match id with
  | some n => toString n
  | none => "undefined"

/-- The `saveTokenBtn` click handler (lines 3 to 28 of `app.js`): trims
the token input, defaults a blank label to "default", shows the saving
status, POSTs the save request, and branches on the outcome. -/
def saveTokenBtnClick (d : Dom) (outcome : FetchOutcome) : List Effect :=
  let token := jsTrim d.tokenValue
  let label := if jsTrim d.labelValue = "" then "default" else jsTrim d.labelValue
  [Effect.setText .saveResult "جاري الحفظ...",
   Effect.post "/api/save-token" (.saveReq token label)] ++
  match outcome with
  | .success j =>
    if j.ok then
      [Effect.setText .saveResult "تم الحفظ. يمكنك الآن التعديل.",
       Effect.setText .tokenId (innerTextOfId j.id),
       Effect.addHiddenClass .step1,
       Effect.removeHiddenClass .dashboard]
    else
      [Effect.setText .saveResult ("خطأ: " ++ errorOrStringify j)]
  | .failure detail =>
    [Effect.setText .saveResult "خطأ في الاتصال",
     Effect.consoleError detail]

/-- The `updateBioBtn` click handler (lines 30 to 52 of `app.js`): reads
the session identifier from the tokenId display via `Number()`, reads the
new bio verbatim (untrimmed), shows the updating status, POSTs the update
request, and branches on the outcome. -/
def updateBioBtnClick (d : Dom) (outcome : FetchOutcome) : List Effect :=
  let id := jsNumber d.tokenIdText
  let newBio := d.newBioValue
  [Effect.setText .updateResult "جاري التحديث...",
   Effect.post "/api/update-bio" (.updateReq id newBio)] ++
  match outcome with
  | .success j =>
    if j.ok then
      [Effect.setText .updateResult "تم التحديث بنجاح.",
       Effect.setText .displayBio newBio]
    else
      [Effect.setText .updateResult ("فشل: " ++ errorOrStringify j)]
  | .failure detail =>
    [Effect.setText .updateResult "خطأ في الاتصال",
     Effect.consoleError detail]

/-- The `deleteTokenBtn` click handler (lines 54 to 71 of `app.js`):
reads the session identifier, asks the fixed confirmation prompt, and
returns if declined; otherwise POSTs the delete request and branches on
the outcome.  Note the catch branch only alerts; it does not log. -/
def deleteTokenBtnClick (d : Dom) (confirmed : Bool) (outcome : FetchOutcome) :
    List Effect :=
  let id := jsNumber d.tokenIdText
  [Effect.confirmPrompt "هل تريد حذف هذا التوكن من الخادم؟"] ++
  if !confirmed then []
  else
    [Effect.post "/api/delete-token" (.deleteReq id)] ++
    match outcome with
    | .success j =>
      if j.ok then [Effect.alertMsg "تم الحذف", Effect.reloadPage]
      else [Effect.alertMsg "فشل الحذف"]
    | .failure _ => [Effect.alertMsg "خطأ"]

/-- The page state after one invocation of the save handler. -/
def saveTokenRun (d : Dom) (o : FetchOutcome) : Dom :=
  applyEffects d (saveTokenBtnClick d o)

/-- The page state after one invocation of the update handler. -/
def updateBioRun (d : Dom) (o : FetchOutcome) : Dom :=
  applyEffects d (updateBioBtnClick d o)

/-- The page state after one invocation of the delete handler. -/
def deleteTokenRun (d : Dom) (c : Bool) (o : FetchOutcome) : Dom :=
  applyEffects d (deleteTokenBtnClick d c o)

/-- The requests a trace issues, in order. -/
def postsOf (t : List Effect) : List (String × RequestBody) :=
  t.filterMap fun e =>
    match e with
    | .post url b => some (url, b)
    | _ => none

/-- The diagnostic-log entries a trace produces, in order. -/
def logsOf (t : List Effect) : List String :=
  t.filterMap fun e =>
    match e with
    | .consoleError s => some s
    | _ => none

/-- The alerts a trace shows, in order. -/
def alertsOf (t : List Effect) : List String :=
  t.filterMap fun e =>
    match e with
    | .alertMsg s => some s
    | _ => none

/-- The save requests a trace issues, projected to (token, label). -/
def savePostsOf (t : List Effect) : List (String × String) :=
  t.filterMap fun e =>
    match e with
    | .post _ (.saveReq tok lab) => some (tok, lab)
    | _ => none

/-- How many times a trace hides the step-1 affordance. -/
def hideStep1Count : List Effect → Nat
  | [] => 0
  | .addHiddenClass .step1 :: es => hideStep1Count es + 1
  | _ :: es => hideStep1Count es

/-- How many times a trace reveals the dashboard affordance. -/
def revealDashboardCount : List Effect → Nat
  | [] => 0
  | .removeHiddenClass .dashboard :: es => revealDashboardCount es + 1
  | _ :: es => revealDashboardCount es

/-- The UI-level states of the spec's state machine. -/
inductive UIState
  | Setup
  | Dashboard
  | Other
deriving DecidableEq

/-- The UI-level state read off the page: `Setup` when step 1 is visible
and the dashboard hidden, `Dashboard` when step 1 is hidden and the
dashboard visible. -/
def uiState (d : Dom) : UIState :=
  if !d.step1Hidden && d.dashboardHidden then .Setup
  else if d.step1Hidden && !d.dashboardHidden then .Dashboard
  else .Other

/-- `sub` occurs inside `s` as a contiguous substring. -/
def containsStr (s sub : String) : Prop :=
  ∃ pre post, s = pre ++ sub ++ post

/-- A concrete page state in the Setup view, used by the concrete-input
theorems below: a token typed with surrounding whitespace, a blank label,
a previously empty session. -/
def dom0 : Dom :=
  { tokenValue := "  tok123  "
    labelValue := "   "
    newBioValue := ""
    saveResultText := ""
    tokenIdText := ""
    updateResultText := ""
    displayBioText := ""
    step1Hidden := false
    dashboardHidden := true }

/-- A string with a nonempty prefix is nonempty. -/
theorem append_ne_empty_of_left (p s : String) (hp : p ≠ "") : p ++ s ≠ "" := by
  intro h
  apply hp
  have hl := congrArg String.length h
  rw [String.length_append, String.length_empty] at hl
  have : p.length = 0 := by omega
  exact String.ext (List.length_eq_zero.mp this)

/-- C1: on a save response with `ok == true` and an integer `id`, the
session identifier display is set to that id in decimal, the UI moves to
the Dashboard state (step-1 affordance hidden, dashboard affordance
revealed), and the handler trace performs each of these two class
mutations exactly once. -/
theorem saveToken_success_sets_id_and_transitions_once
    (d : Dom) (j : ServiceResponse) (n : Int)
    (hok : j.ok = true) (hid : j.id = some n)
    (hsetup : uiState d = UIState.Setup) :
    (saveTokenRun d (.success j)).tokenIdText = toString n ∧
    uiState (saveTokenRun d (.success j)) = UIState.Dashboard ∧
    hideStep1Count (saveTokenBtnClick d (.success j)) = 1 ∧
    revealDashboardCount (saveTokenBtnClick d (.success j)) = 1 := by
  simp [saveTokenRun, saveTokenBtnClick, hok, hid, applyEffects, applyEffect,
        innerTextOfId, uiState, hideStep1Count, revealDashboardCount]

/-- C1, concrete instance: from the Setup page `dom0`, the response
`ok:true, id:42` sets the display to "42" and lands in Dashboard with one
hide and one reveal. -/
theorem saveToken_success_sets_id_and_transitions_once_witness :
    (saveTokenRun dom0
        (.success { ok := true, id := some 42, error := none })).tokenIdText
      = toString (42 : Int) ∧
    uiState (saveTokenRun dom0
        (.success { ok := true, id := some 42, error := none }))
      = UIState.Dashboard ∧
    hideStep1Count (saveTokenBtnClick dom0
        (.success { ok := true, id := some 42, error := none })) = 1 ∧
    revealDashboardCount (saveTokenBtnClick dom0
        (.success { ok := true, id := some 42, error := none })) = 1 :=
  saveToken_success_sets_id_and_transitions_once dom0 _ 42 rfl rfl rfl

/-- C2, counterexample to the claim as stated: on a transport failure of
the delete operation the technical detail is NOT sent to the diagnostic
log (the catch branch on lines 68 to 70 of `app.js` only alerts), and the
fixed message delete shows ("خطأ") differs from the fixed message save
shows ("خطأ في الاتصال"), so there is no single fixed message across the
three operations either. -/
theorem delete_transport_failure_unlogged_cx :
    logsOf (deleteTokenBtnClick dom0 true (.failure "ECONNREFUSED")) = [] ∧
    alertsOf (deleteTokenBtnClick dom0 true (.failure "ECONNREFUSED")) = ["خطأ"] ∧
    (saveTokenRun dom0 (.failure "ECONNREFUSED")).saveResultText = "خطأ في الاتصال" ∧
    "خطأ" ≠ "خطأ في الاتصال" :=
  ⟨rfl, rfl, rfl, by decide⟩

/-- C2, amended: on every transport or parse failure, each handler shows
its own fixed generic message, independent of the technical detail —
"خطأ في الاتصال" for save and update, the alert "خطأ" for delete; save
and update send exactly the technical detail to the diagnostic log, while
delete discards it without logging; the delete failure changes no page
state; and every handler runs to completion (each run is a total
function, so no error escapes a handler). -/
theorem transport_failure_generic_per_handler (d : Dom) (detail : String) :
    (saveTokenRun d (.failure detail)).saveResultText = "خطأ في الاتصال" ∧
    logsOf (saveTokenBtnClick d (.failure detail)) = [detail] ∧
    (updateBioRun d (.failure detail)).updateResultText = "خطأ في الاتصال" ∧
    logsOf (updateBioBtnClick d (.failure detail)) = [detail] ∧
    alertsOf (deleteTokenBtnClick d true (.failure detail)) = ["خطأ"] ∧
    logsOf (deleteTokenBtnClick d true (.failure detail)) = [] ∧
    deleteTokenRun d true (.failure detail) = d := by
  simp [saveTokenRun, updateBioRun, deleteTokenRun, saveTokenBtnClick,
        updateBioBtnClick, deleteTokenBtnClick, logsOf, alertsOf,
        applyEffects, applyEffect]

/-- C3, counterexample to the claim as stated: when the `error` field is
present but equal to the empty string, the message is not taken from the
error field; the JavaScript `||` on line 22 of `app.js` treats the empty
string as falsy and falls through to the stringified response. -/
theorem save_empty_error_field_falls_back_cx :
    ({ ok := false, id := none, error := some "" } : ServiceResponse).error
      = some "" ∧
    (saveTokenRun dom0
        (.success { ok := false, id := none, error := some "" })).saveResultText
      ≠ "خطأ: " ++ "" ∧
    (saveTokenRun dom0
        (.success { ok := false, id := none, error := some "" })).saveResultText
      = "خطأ: " ++ stringifyResponse { ok := false, id := none, error := some "" } :=
  ⟨rfl, by decide, rfl⟩

/-- C3, amended: on every failed save or update (`ok == false`), the
displayed message is built from the `error` field when that field is
present and non-empty; otherwise (absent or empty) it is built from the
stringified full response body, contains that stringified body, and is
not blank. -/
theorem failed_save_update_error_message (d : Dom) (j : ServiceResponse)
    (hok : j.ok = false) :
    (∀ e, j.error = some e → e ≠ "" →
      (saveTokenRun d (.success j)).saveResultText = "خطأ: " ++ e ∧
      (updateBioRun d (.success j)).updateResultText = "فشل: " ++ e) ∧
    ((j.error = none ∨ j.error = some "") →
      (saveTokenRun d (.success j)).saveResultText
          = "خطأ: " ++ stringifyResponse j ∧
      (updateBioRun d (.success j)).updateResultText
          = "فشل: " ++ stringifyResponse j ∧
      containsStr (saveTokenRun d (.success j)).saveResultText
          (stringifyResponse j) ∧
      (saveTokenRun d (.success j)).saveResultText ≠ "" ∧
      (updateBioRun d (.success j)).updateResultText ≠ "") := by
  constructor
  · intro e he hne
    simp [saveTokenRun, updateBioRun, saveTokenBtnClick, updateBioBtnClick,
          hok, errorOrStringify, he, hne, applyEffects, applyEffect]
  · intro he
    have hfall : errorOrStringify j = stringifyResponse j := by
      rcases he with h | h <;> simp [errorOrStringify, h]
    refine ⟨?_, ?_, ?_, ?_, ?_⟩
    · simp [saveTokenRun, saveTokenBtnClick, hok, hfall, applyEffects, applyEffect]
    · simp [updateBioRun, updateBioBtnClick, hok, hfall, applyEffects, applyEffect]
    · refine ⟨"خطأ: ", "", ?_⟩
      simp [saveTokenRun, saveTokenBtnClick, hok, hfall, applyEffects, applyEffect]
    · simp only [saveTokenRun, saveTokenBtnClick, hok, hfall, applyEffects,
        applyEffect]
      exact append_ne_empty_of_left _ _ (by decide)
    · simp only [updateBioRun, updateBioBtnClick, hok, hfall, applyEffects,
        applyEffect]
      exact append_ne_empty_of_left _ _ (by decide)

/-- C3, concrete instance: a failed save whose response has no `error`
field displays the stringified response. -/
theorem failed_save_update_error_message_witness :
    (saveTokenRun dom0
        (.success { ok := false, id := none, error := none })).saveResultText
      = "خطأ: " ++ stringifyResponse { ok := false, id := none, error := none } :=
  ((failed_save_update_error_message dom0
      { ok := false, id := none, error := none } rfl).2 (Or.inl rfl)).1

/-- C4: a save response with `ok == false` and a non-empty error text
leaves the UI in the Setup state, leaves the session identifier display
unchanged, and displays a message containing the error text. -/
theorem saveToken_failure_stays_setup (d : Dom) (j : ServiceResponse)
    (e : String) (hok : j.ok = false) (herr : j.error = some e) (hne : e ≠ "")
    (hsetup : uiState d = UIState.Setup) :
    uiState (saveTokenRun d (.success j)) = UIState.Setup ∧
    (saveTokenRun d (.success j)).tokenIdText = d.tokenIdText ∧
    containsStr (saveTokenRun d (.success j)).saveResultText e := by
  have hrun : saveTokenRun d (.success j)
      = { d with saveResultText := "خطأ: " ++ e } := by
    simp [saveTokenRun, saveTokenBtnClick, hok, errorOrStringify, herr, hne,
          applyEffects, applyEffect]
  rw [hrun]
  refine ⟨?_, rfl, "خطأ: ", "", by simp⟩
  simpa [uiState] using hsetup

/-- C4, concrete instance: from the Setup page `dom0`, the response
`ok:false, error:"dup"` stays in Setup and shows a message containing
"dup". -/
theorem saveToken_failure_stays_setup_witness :
    uiState (saveTokenRun dom0
        (.success { ok := false, id := none, error := some "dup" }))
      = UIState.Setup ∧
    (saveTokenRun dom0
        (.success { ok := false, id := none, error := some "dup" })).tokenIdText
      = dom0.tokenIdText ∧
    containsStr (saveTokenRun dom0
        (.success { ok := false, id := none, error := some "dup" })).saveResultText
      "dup" :=
  saveToken_failure_stays_setup dom0 _ "dup" rfl rfl (by decide) rfl

/-- C5: every save attempt, whatever the outcome, issues exactly one save
request, and the token it carries is the token input trimmed of leading
and trailing whitespace. -/
theorem saveToken_transmits_trimmed_token (d : Dom) (o : FetchOutcome) :
    (savePostsOf (saveTokenBtnClick d o)).map Prod.fst = [jsTrim d.tokenValue] := by
  cases o with
  | success j => cases hj : j.ok <;> simp [saveTokenBtnClick, savePostsOf, hj]
  | failure detail => simp [saveTokenBtnClick, savePostsOf]

/-- C6: every save attempt whose label input is blank after trimming
transmits the literal label "default". -/
theorem saveToken_blank_label_sends_default (d : Dom) (o : FetchOutcome)
    (h : jsTrim d.labelValue = "") :
    (savePostsOf (saveTokenBtnClick d o)).map Prod.snd = ["default"] := by
  cases o with
  | success j => cases hj : j.ok <;> simp [saveTokenBtnClick, savePostsOf, hj, h]
  | failure detail => simp [saveTokenBtnClick, savePostsOf, h]

/-- C6, concrete instance: `dom0` has a whitespace-only label input, and
its save request carries the label "default". -/
theorem saveToken_blank_label_sends_default_witness :
    (savePostsOf (saveTokenBtnClick dom0
        (.success { ok := true, id := some 1, error := none }))).map Prod.snd
      = ["default"] :=
  saveToken_blank_label_sends_default dom0 _ rfl

/-- C7: an update response with `ok == true` sets the displayed current
bio to exactly the new-bio input, verbatim and untrimmed. -/
theorem updateBio_success_displays_newBio_verbatim (d : Dom)
    (j : ServiceResponse) (hok : j.ok = true) :
    (updateBioRun d (.success j)).displayBioText = d.newBioValue := by
  simp [updateBioRun, updateBioBtnClick, hok, applyEffects, applyEffect]

/-- C7, concrete instance: `dom0` has the empty string in the new-bio
input, and a successful update displays exactly that empty string. -/
theorem updateBio_success_displays_newBio_verbatim_witness :
    (updateBioRun dom0
        (.success { ok := true, id := none, error := none })).displayBioText
      = dom0.newBioValue :=
  updateBio_success_displays_newBio_verbatim dom0 _ rfl

/-- C8: a delete attempt the user declines performs nothing beyond the
confirmation prompt: its trace issues no request and the page state is
unchanged. -/
theorem deleteToken_declined_is_noop (d : Dom) (o : FetchOutcome) :
    deleteTokenBtnClick d false o
      = [Effect.confirmPrompt "هل تريد حذف هذا التوكن من الخادم؟"] ∧
    postsOf (deleteTokenBtnClick d false o) = [] ∧
    deleteTokenRun d false o = d :=
  ⟨rfl, rfl, rfl⟩

/-- C9: a confirmed delete whose response has `ok == true` shows the
confirmation alert and then reloads; the full trace is the prompt, the
request, the alert and the reload, in that order, and the reload leaves
the page in the initial state: session identifier display unset (empty)
and the UI in Setup. -/
theorem deleteToken_success_alerts_then_reloads (d : Dom)
    (j : ServiceResponse) (hok : j.ok = true) :
    deleteTokenBtnClick d true (.success j)
      = [Effect.confirmPrompt "هل تريد حذف هذا التوكن من الخادم؟",
         Effect.post "/api/delete-token" (.deleteReq (jsNumber d.tokenIdText)),
         Effect.alertMsg "تم الحذف", Effect.reloadPage] ∧
    deleteTokenRun d true (.success j) = initialDom ∧
    (deleteTokenRun d true (.success j)).tokenIdText = "" ∧
    uiState (deleteTokenRun d true (.success j)) = UIState.Setup := by
  have htr : deleteTokenBtnClick d true (.success j)
      = [Effect.confirmPrompt "هل تريد حذف هذا التوكن من الخادم؟",
         Effect.post "/api/delete-token" (.deleteReq (jsNumber d.tokenIdText)),
         Effect.alertMsg "تم الحذف", Effect.reloadPage] := by
    simp [deleteTokenBtnClick, hok]
  have hrun : deleteTokenRun d true (.success j) = initialDom := by
    show applyEffects d (deleteTokenBtnClick d true (.success j)) = initialDom
    rw [htr]
    rfl
  exact ⟨htr, hrun, by rw [hrun]; rfl, by rw [hrun]; rfl⟩

/-- C9, concrete instance: a confirmed delete from `dom0` on response
`ok:true` alerts, reloads, and ends with the session identifier unset in
the Setup state. -/
theorem deleteToken_success_alerts_then_reloads_witness :
    deleteTokenBtnClick dom0 true
        (.success { ok := true, id := none, error := none })
      = [Effect.confirmPrompt "هل تريد حذف هذا التوكن من الخادم؟",
         Effect.post "/api/delete-token" (.deleteReq (jsNumber dom0.tokenIdText)),
         Effect.alertMsg "تم الحذف", Effect.reloadPage] ∧
    deleteTokenRun dom0 true
        (.success { ok := true, id := none, error := none }) = initialDom ∧
    (deleteTokenRun dom0 true
        (.success { ok := true, id := none, error := none })).tokenIdText = "" ∧
    uiState (deleteTokenRun dom0 true
        (.success { ok := true, id := none, error := none })) = UIState.Setup :=
  deleteToken_success_alerts_then_reloads dom0 _ rfl

/-- C10: when the session identifier display is empty (no save has
succeeded), update and confirmed delete are not blocked client-side: each
still issues its request, with id 0, because `Number("")` is 0. -/
theorem no_session_update_delete_send_id_zero (d : Dom) (o : FetchOutcome)
    (h : d.tokenIdText = "") :
    postsOf (updateBioBtnClick d o)
      = [("/api/update-bio", RequestBody.updateReq 0 d.newBioValue)] ∧
    postsOf (deleteTokenBtnClick d true o)
      = [("/api/delete-token", RequestBody.deleteReq 0)] := by
  have h0 : jsNumber d.tokenIdText = 0 := by rw [h]; rfl
  constructor
  · cases o with
    | success j => cases hj : j.ok <;> simp [updateBioBtnClick, postsOf, h0, hj]
    | failure detail => simp [updateBioBtnClick, postsOf, h0]
  · cases o with
    | success j => cases hj : j.ok <;> simp [deleteTokenBtnClick, postsOf, h0, hj]
    | failure detail => simp [deleteTokenBtnClick, postsOf, h0]

/-- C10, concrete instance: `dom0` has an empty session identifier
display, and both the update request and the confirmed delete request
carry id 0. -/
theorem no_session_update_delete_send_id_zero_witness :
    postsOf (updateBioBtnClick dom0
        (.success { ok := true, id := none, error := none }))
      = [("/api/update-bio", RequestBody.updateReq 0 dom0.newBioValue)] ∧
    postsOf (deleteTokenBtnClick dom0 true
        (.success { ok := true, id := none, error := none }))
      = [("/api/delete-token", RequestBody.deleteReq 0)] :=
  no_session_update_delete_send_id_zero dom0 _ rfl
